import Mathlib

/-!
Shallow embedding of the gas-hazard HMI core from `src/app.py`:
threshold classification, gas-label parsing, the spike-event record and
its rendering intensity, the synthetic reading bump of the simulator,
the notification timeline, the active-spike session slot, and the
per-detector ring buffers.  Numeric values are rationals (the Python
floats in play are all exactly representable decimals); the one claim
about non-finite readings uses an explicit IEEE-style value type whose
comparisons with NaN are false.
-/

namespace HMI

/-- Per-gas threshold configuration, mirroring the entries of `DEFAULT_THR`
in `src/app.py` (`mode`, `warn`, `alarm`, `units`). -/
structure Thr where
  mode : String
  warn : ℚ
  alarm : ℚ
  units : String
deriving Repr, DecidableEq

/-- The `DEFAULT_THR` dictionary of `src/app.py` as a partial lookup:
configured gases map to their threshold record, everything else to `none`. -/
def DEFAULT_THR (g : String) : Option Thr :=
  if g = "O2" then some ⟨"low", 39/2, 18, "%vol"⟩
  else if g = "CO" then some ⟨"high", 35, 50, "ppm"⟩
  else if g = "H2S" then some ⟨"high", 10, 15, "ppm"⟩
  else if g = "CH4" then some ⟨"high", 10, 20, "%LEL"⟩
  else if g = "NH3" then some ⟨"high", 25, 35, "ppm"⟩
  else if g = "Ethanol" then some ⟨"high", 300, 500, "ppm"⟩
  else none

/-- `status_for_value` from `src/app.py`: looks the gas up in `DEFAULT_THR`
with the fallback `{"mode":"high","warn":0,"alarm":0}` and applies the
two-level low/high trip comparison. -/
def status_for_value (gas : String) (val : ℚ) : String :=
  let thr := (DEFAULT_THR gas).getD ⟨"high", 0, 0, ""⟩
  if thr.mode = "low" then
    if val ≤ thr.alarm then "ALARM"
    else if val ≤ thr.warn then "WARN"
    else "HEALTHY"
  else
    if thr.alarm ≤ val then "ALARM"
    else if thr.warn ≤ val then "WARN"
    else "HEALTHY"

/-- The two-level classification policy exactly as the spec words it
(HIGH_TRIP: `value >= alarmLevel -> ALARM`, else `value >= warnLevel -> WARN`,
else HEALTHY; LOW_TRIP dually with `<=`), applied to a threshold record. -/
def specClassify (thr : Thr) (val : ℚ) : String :=
  if thr.mode = "low" then
    if val ≤ thr.alarm then "ALARM"
    else if val ≤ thr.warn then "WARN"
    else "HEALTHY"
  else
    if thr.alarm ≤ val then "ALARM"
    else if thr.warn ≤ val then "WARN"
    else "HEALTHY"

/-- An IEEE-style reading value: finite (rational), NaN, or +infinity.
Used to model how Python float comparisons behave inside
`status_for_value` when handed a non-finite value. -/
inductive FVal where
  | nan : FVal
  | inf : FVal
  | fin : ℚ → FVal
deriving Repr, DecidableEq

/-- IEEE `<=` on readings: any comparison involving NaN is false;
+infinity is `<=`-above every finite value and itself. -/
def fle : FVal → FVal → Bool
  | .fin a, .fin b => decide (a ≤ b)
  | .fin _, .inf => true
  | .inf, .inf => true
  | _, _ => false

/-- `status_for_value` as executed on a Python float argument: the same
code path as `status_for_value`, with each `<=`/`>=` comparison given
IEEE semantics via `fle`. -/
def status_for_value_float (gas : String) (v : FVal) : String :=
  let thr := (DEFAULT_THR gas).getD ⟨"high", 0, 0, ""⟩
  if thr.mode = "low" then
    if fle v (.fin thr.alarm) then "ALARM"
    else if fle v (.fin thr.warn) then "WARN"
    else "HEALTHY"
  else
    if fle (.fin thr.alarm) v then "ALARM"
    else if fle (.fin thr.warn) v then "WARN"
    else "HEALTHY"

/-- ASCII lowercasing of one character, as Python `str.lower` acts on the
ASCII detector labels used by the app. -/
def lowerChar (c : Char) : Char :=
  if 'A' ≤ c ∧ c ≤ 'Z' then Char.ofNat (c.toNat + 32) else c

/-- `key.lower()` for ASCII strings. -/
def pyLower (s : String) : String :=
  String.mk (s.data.map lowerChar)

/-- Python's substring test `sub in k`. -/
def pyIn (sub k : String) : Bool :=
  decide (sub.data <:+: k.data)

/-- `gas_from_label` from `src/app.py`: substring-sniffs the lowercased
label, falling back to "CO" when nothing matches. -/
def gas_from_label (key : String) : String :=
  let k := pyLower key
  if pyIn "o2" k then "O2"
  else if pyIn "h2s" k then "H2S"
  else if pyIn "ch4" k || pyIn "lel" k || pyIn "methane" k then "CH4"
  else if pyIn "nh3" k || pyIn "ammonia" k then "NH3"
  else if pyIn "ethanol" k then "Ethanol"
  else if pyIn "co" k && !pyIn "co2" k then "CO"
  else "CO"

/-- `gas_from_label` with the `and "co2" not in k` exclusion removed from
the CO branch, used to show that exclusion never changes the result. -/
def gas_from_label_no_exclusion (key : String) : String :=
  let k := pyLower key
  if pyIn "o2" k then "O2"
  else if pyIn "h2s" k then "H2S"
  else if pyIn "ch4" k || pyIn "lel" k || pyIn "methane" k then "CH4"
  else if pyIn "nh3" k || pyIn "ammonia" k then "NH3"
  else if pyIn "ethanol" k then "Ethanol"
  else if pyIn "co" k then "CO"
  else "CO"

/-- The `st.session_state.spike` dictionary: one active hazard event
(`room`, `gas`, `start_ts`, `duration`, `shutters_at`, `fade_after`). -/
structure SpikeEvent where
  room : String
  gas : String
  start_ts : ℚ
  duration : ℚ
  shutters_at : ℚ
  fade_after : ℚ
deriving Repr, DecidableEq

/-- The spike dictionary each of the three "Simulate Spike" buttons builds:
fixed `duration=14`, `shutters_at=5`, `fade_after=9`. -/
def mkSpike (room gas : String) (now : ℚ) : SpikeEvent :=
  ⟨room, gas, now, 14, 5, 9⟩

/-- The smoke intensity `smokeP` computed per animation frame by the
canvas scripts of `render_facility` and `render_room` (both use the same
formula): `p = clamp(elapsed/duration, 0, 1)`, `smokeP = min(1, p*1.2)`,
and once `elapsed > fade_after`,
`smokeP = max(0, 1 - min(1, (elapsed - fade_after)/(duration - fade_after + 0.01)))`. -/
def smokeP (a : SpikeEvent) (now : ℚ) : ℚ :=
  let elapsed := now - a.start_ts
  let p := max 0 (min 1 (elapsed / a.duration))
  if a.fade_after < elapsed then
    max 0 (1 - min 1 ((elapsed - a.fade_after) / (a.duration - a.fade_after + 1/100)))
  else
    min 1 (p * (6/5))

/-- The synthetic reading perturbation of `simulate_live_values`:
`bump = max(0.0, (elapsed/3.5) * (10 if g != "O2" else -2))`. -/
def spikeBump (g : String) (elapsed : ℚ) : ℚ :=
  max 0 ((elapsed / (7/2)) * (if g ≠ "O2" then 10 else -2))

/-- The `ROOM_DETECTORS` dictionary (with `.get(room, [])` default). -/
def ROOM_DETECTORS (room : String) : List String :=
  if room = "Room 1" then ["Room 1: NH3"]
  else if room = "Room 2" then ["Room 2: CO"]
  else if room = "Room 3" then ["Room 3: O2"]
  else if room = "Room 12" then ["Room 12: Ethanol"]
  else if room = "Production 1" then ["Production 1: O2", "Production 1: CH4"]
  else if room = "Production 2" then ["Production 2: O2", "Production 2: H2S"]
  else []

/-- The value `simulate_live_values` produces for one detector `key` whose
baseline is `base`: when a spike dictionary is present, the bump is added
exactly when `key` lies in the spike's room and its parsed gas equals the
spike's gas — with no check that the spike is still within its duration. -/
def simValue (sp : Option SpikeEvent) (key : String) (base now : ℚ) : ℚ :=
  match sp with
  | none => base
  | some s =>
    if key ∈ ROOM_DETECTORS s.room ∧ gas_from_label key = s.gas then
      base + spikeBump (gas_from_label key) (now - s.start_ts)
    else base

/-- The `events` list built by `render_sidebar_ai` for an active spike:
six timeline entries `(at, msg)` with the message texts of the source. -/
def messagesFor (room gas : String) : List (ℚ × String) :=
  [ (0, gas ++ " levels elevated in " ++ room ++ ". Monitoring…"),
    (2, gas ++ " rising. Investigate source and increase ventilation."),
    (5, "Alarm threshold reached. Closing shutters to isolate " ++ room ++ "."),
    (7, room ++ " isolated. Production areas remain safe."),
    (10, "Ventilation engaged. " ++ gas ++ " dissipating."),
    (13, room ++ " returned to safe condition.") ]

/-- One "start spike" operation: each of the three buttons assigns a fresh
`mkSpike` dictionary to `st.session_state.spike` unconditionally,
overwriting whatever the slot held. -/
def startSpike (_slot : Option SpikeEvent) (op : String × String × ℚ) :
    Option SpikeEvent :=
  some (mkSpike op.1 op.2.1 op.2.2)

/-- The per-detector history state of the app: `st.session_state.buffers`
and `st.session_state.latest`. -/
structure Buffers where
  buffers : String → List (ℚ × ℚ)
  latest : String → Option (ℚ × ℚ)

/-- `push_point` from `src/app.py`: append `(ts, val)` to the key's buffer,
trim the front down to the newest 1800 entries, and record the pair in
`latest`. -/
def push_point (s : Buffers) (key : String) (ts val : ℚ) : Buffers :=
  let buf := s.buffers key ++ [(ts, val)]
  let buf2 := if 1800 < buf.length then buf.drop (buf.length - 1800) else buf
  { buffers := fun k => if k = key then buf2 else s.buffers k,
    latest := fun k => if k = key then some (ts, val) else s.latest k }

end HMI

/-- C1: for every gas with a configured threshold and every reading value,
`status_for_value` follows the two-level low/high-trip policy exactly, and in
particular for the O2 config (warn 19.5, alarm 18.0): 18.0 ↦ ALARM,
19.5 ↦ WARN, 20.9 ↦ HEALTHY. -/
theorem c1_classify_policy :
    (∀ g thr, HMI.DEFAULT_THR g = some thr →
      ∀ v : ℚ, HMI.status_for_value g v = HMI.specClassify thr v) ∧
    HMI.status_for_value "O2" 18 = "ALARM" ∧
    HMI.status_for_value "O2" (39/2) = "WARN" ∧
    HMI.status_for_value "O2" (209/10) = "HEALTHY" := by
  refine ⟨?_, by norm_num [HMI.status_for_value, HMI.DEFAULT_THR],
    by norm_num [HMI.status_for_value, HMI.DEFAULT_THR],
    by norm_num [HMI.status_for_value, HMI.DEFAULT_THR]⟩
  intro g thr h v
  simp only [HMI.status_for_value, HMI.specClassify, h, Option.getD_some]

/-- Witness for C1: the general policy equation applied at the configured
gas "CO" and value 42. -/
theorem c1_classify_policy_witness :
    HMI.status_for_value "CO" 42 = HMI.specClassify ⟨"high", 35, 50, "ppm"⟩ 42 :=
  c1_classify_policy.1 "CO" ⟨"high", 35, 50, "ppm"⟩ (by decide) 42

/-- C5 counterexample: "Xe" has no configured ThresholdConfig, yet
`status_for_value` silently returns the SafetyStatus "ALARM" for it
(via the `{"mode":"high","warn":0,"alarm":0}` fallback of `.get`),
refuting the claim that classification fails with a ConfigurationError. -/
theorem c5_unconfigured_counterexample :
    HMI.DEFAULT_THR "Xe" = none ∧ HMI.status_for_value "Xe" 5 = "ALARM" := by
  constructor
  · decide
  · simp only [HMI.status_for_value,
      show HMI.DEFAULT_THR "Xe" = none from by decide, Option.getD_none]
    rw [if_neg (by decide), if_pos (by norm_num)]

/-- C5 amended: for a gas with no configured ThresholdConfig,
`status_for_value` never fails; it classifies against the fallback
`{"mode":"high","warn":0,"alarm":0}`, returning ALARM for any value >= 0
and HEALTHY otherwise. -/
theorem c5_unconfigured_fallback (g : String) (h : HMI.DEFAULT_THR g = none)
    (v : ℚ) :
    HMI.status_for_value g v = if 0 ≤ v then "ALARM" else "HEALTHY" := by
  simp only [HMI.status_for_value, h, Option.getD_none]
  rw [if_neg (by decide)]
  by_cases h0 : (0 : ℚ) ≤ v <;> simp [h0]

/-- Witness for C5's amended theorem at the unconfigured gas "Xe". -/
theorem c5_unconfigured_fallback_witness :
    HMI.status_for_value "Xe" (-3) = "HEALTHY" := by
  have h := c5_unconfigured_fallback "Xe" (by decide) (-3)
  norm_num at h
  exact h

/-- C6: the AI-sidebar timeline derived from a spike has exactly 6 entries,
in order, at offsets [0, 2, 5, 7, 10, 13], for every gas kind and location;
only the message text depends on the gas/room strings. -/
theorem c6_notifications (room gas : String) :
    (HMI.messagesFor room gas).length = 6 ∧
    (HMI.messagesFor room gas).map Prod.fst = [0, 2, 5, 7, 10, 13] :=
  ⟨rfl, rfl⟩

/-- C8 (evaluation at the failing input): `status_for_value` run on a
non-finite float never raises; a NaN reading silently classifies as
"HEALTHY" for both a HIGH_TRIP gas (CO) and the LOW_TRIP gas (O2), since
every IEEE comparison with NaN is false, and +infinity classifies as
"ALARM" — no InvalidReading error exists in the code. -/
theorem c8_nonfinite_silently_classified :
    HMI.status_for_value_float "CO" .nan = "HEALTHY" ∧
    HMI.status_for_value_float "O2" .nan = "HEALTHY" ∧
    HMI.status_for_value_float "CO" .inf = "ALARM" := by
  refine ⟨?_, ?_, ?_⟩ <;> decide

/-- C3 (evaluation at the failing input): the simulator's reading bump for
the LOW_TRIP gas O2 is 0 at elapsed 3.5 and 14 — the outer
`max(0.0, ...)` clamps the intended `-2`-signed perturbation to zero, so
an O2 spike never produces the strictly negative bump the spec requires —
while a HIGH_TRIP gas (CH4) gets the positive bump 10 at elapsed 3.5. -/
theorem c3_bump_eval :
    HMI.spikeBump "O2" (7/2) = 0 ∧
    HMI.spikeBump "O2" 14 = 0 ∧
    HMI.spikeBump "CH4" (7/2) = 10 := by
  refine ⟨?_, ?_, ?_⟩
  · simp only [HMI.spikeBump]
    norm_num
  · simp only [HMI.spikeBump]
    norm_num
  · simp only [HMI.spikeBump]
    rw [if_pos (by decide), max_eq_right (by norm_num)]
    norm_num

/-- Helper: a string containing "co2" also contains "o2". -/
theorem pyIn_co2_o2 {k : String} (h : HMI.pyIn "co2" k = true) :
    HMI.pyIn "o2" k = true := by
  simp only [HMI.pyIn, decide_eq_true_eq] at h ⊢
  exact (show "o2".data <:+: "co2".data by decide).trans h

/-- C9 counterexample: the label "CO2 Sensor" contains "co2" and none of
the substrings h2s, ch4, lel, methane, nh3, ammonia, ethanol, yet
`gas_from_label` returns "O2" — not the claimed fallback "CO" — because
"o2" is a substring of "co2" and the O2 branch fires first. -/
theorem c9_co2_label_counterexample :
    HMI.gas_from_label "CO2 Sensor" = "O2" ∧
    HMI.pyIn "co2" (HMI.pyLower "CO2 Sensor") = true ∧
    HMI.pyIn "h2s" (HMI.pyLower "CO2 Sensor") = false ∧
    HMI.pyIn "ch4" (HMI.pyLower "CO2 Sensor") = false ∧
    HMI.pyIn "lel" (HMI.pyLower "CO2 Sensor") = false ∧
    HMI.pyIn "methane" (HMI.pyLower "CO2 Sensor") = false ∧
    HMI.pyIn "nh3" (HMI.pyLower "CO2 Sensor") = false ∧
    HMI.pyIn "ammonia" (HMI.pyLower "CO2 Sensor") = false ∧
    HMI.pyIn "ethanol" (HMI.pyLower "CO2 Sensor") = false ∧
    "O2" ≠ "CO" := by
  decide

/-- C9 amended: (1) a label matching none of the recognized substrings
(including "co") returns the default "CO" without error; (2) every label
containing "co2" returns "O2" (the "o2" branch fires first), so no
"co2" label ever reaches the CO branch or the fallback; (3) the
`and "co2" not in k` exclusion in the CO branch never changes the final
result, since the branch and the fallback both return "CO". -/
theorem c9_gas_label_amended :
    (∀ k : String, HMI.pyIn "o2" (HMI.pyLower k) = false →
      HMI.pyIn "h2s" (HMI.pyLower k) = false →
      HMI.pyIn "ch4" (HMI.pyLower k) = false →
      HMI.pyIn "lel" (HMI.pyLower k) = false →
      HMI.pyIn "methane" (HMI.pyLower k) = false →
      HMI.pyIn "nh3" (HMI.pyLower k) = false →
      HMI.pyIn "ammonia" (HMI.pyLower k) = false →
      HMI.pyIn "ethanol" (HMI.pyLower k) = false →
      HMI.pyIn "co" (HMI.pyLower k) = false →
      HMI.gas_from_label k = "CO") ∧
    (∀ k : String, HMI.pyIn "co2" (HMI.pyLower k) = true →
      HMI.gas_from_label k = "O2") ∧
    (∀ k : String, HMI.gas_from_label k = HMI.gas_from_label_no_exclusion k) := by
  refine ⟨?_, ?_, ?_⟩
  · intro k h1 h2 h3 h4 h5 h6 h7 h8 h9
    simp [HMI.gas_from_label, h1, h2, h3, h4, h5, h6, h7, h8, h9]
  · intro k h
    have ho2 := pyIn_co2_o2 h
    simp [HMI.gas_from_label, ho2]
  · intro k
    simp only [HMI.gas_from_label, HMI.gas_from_label_no_exclusion]
    split_ifs <;> rfl

/-- Witness for C9's amended theorem: an unmatched label falls back to
"CO", and a "co2" label parses as "O2". -/
theorem c9_gas_label_amended_witness :
    HMI.gas_from_label "Chamber 7" = "CO" ∧
    HMI.gas_from_label "co2 duct" = "O2" :=
  ⟨c9_gas_label_amended.1 "Chamber 7" (by decide) (by decide) (by decide)
      (by decide) (by decide) (by decide) (by decide) (by decide) (by decide),
    c9_gas_label_amended.2.1 "co2 duct" (by decide)⟩

/-- C7: every "start spike" operation overwrites the single active-spike
slot unconditionally, so after any non-empty sequence of start operations
the slot holds exactly the event built from the most recent operation
(last-write-wins, no merging or queuing). -/
theorem c7_last_write_wins (init : Option HMI.SpikeEvent)
    (ops : List (String × String × ℚ)) (h : ops ≠ []) :
    ops.foldl HMI.startSpike init =
      ops.getLast?.map (fun op => HMI.mkSpike op.1 op.2.1 op.2.2) := by
  induction ops generalizing init with
  | nil => exact absurd rfl h
  | cons a l ih =>
    cases l with
    | nil => simp [HMI.startSpike]
    | cons b m =>
      rw [List.foldl_cons, ih (HMI.startSpike init a) (by simp),
        List.getLast?_cons_cons]

/-- Witness for C7: starting a spike in Room 1 and then one in Room 3
leaves exactly the Room 3 event in the slot. -/
theorem c7_last_write_wins_witness :
    [("Room 1", "NH3", (50 : ℚ)), ("Room 3", "O2", 100)].foldl
        HMI.startSpike none = some (HMI.mkSpike "Room 3" "O2" 100) := by
  have h := c7_last_write_wins none
    [("Room 1", "NH3", (50 : ℚ)), ("Room 3", "O2", 100)] (by simp)
  simpa using h

/-- C10: after `push_point key val`, the key's buffer has at most 1800
entries, its last element is the appended `(ts, value)` pair, the buffer is
a suffix of the old buffer plus the new point (trimming removes only the
oldest entries and preserves the order of the rest), and `latest[key]`
equals the same pair. -/
theorem c10_push_point (s : HMI.Buffers) (key : String) (ts val : ℚ) :
    ((HMI.push_point s key ts val).buffers key).length ≤ 1800 ∧
    ((HMI.push_point s key ts val).buffers key).getLast? = some (ts, val) ∧
    (HMI.push_point s key ts val).buffers key <:+
      s.buffers key ++ [(ts, val)] ∧
    (HMI.push_point s key ts val).latest key = some (ts, val) := by
  have hbuf : (HMI.push_point s key ts val).buffers key =
      if 1800 < (s.buffers key ++ [(ts, val)]).length
      then (s.buffers key ++ [(ts, val)]).drop
        ((s.buffers key ++ [(ts, val)]).length - 1800)
      else s.buffers key ++ [(ts, val)] := by
    simp [HMI.push_point]
  have hlat : (HMI.push_point s key ts val).latest key = some (ts, val) := by
    simp [HMI.push_point]
  have hlen1 : (s.buffers key ++ [(ts, val)]).length =
      (s.buffers key).length + 1 := by
    simp
  by_cases hlen : 1800 < (s.buffers key ++ [(ts, val)]).length
  · rw [hbuf, if_pos hlen]
    have hle : (s.buffers key ++ [(ts, val)]).length - 1800 ≤
        (s.buffers key).length := by
      omega
    refine ⟨?_, ?_, List.drop_suffix _ _, hlat⟩
    · rw [List.length_drop]
      omega
    · rw [List.drop_append_of_le_length hle, List.getLast?_concat]
  · rw [hbuf, if_neg hlen]
    exact ⟨by omega, List.getLast?_concat _, List.suffix_refl _, hlat⟩

/-- Helper: on the rising branch (0 <= elapsed <= fade_after = 9) the smoke
intensity of a spike built by the buttons equals `1.2 * elapsed / 14`,
written `3 * elapsed / 35` (the `min 1` cap never binds there). -/
theorem smokeP_rise (r g : String) (s e : ℚ) (h0 : 0 ≤ e) (h9 : e ≤ 9) :
    HMI.smokeP (HMI.mkSpike r g s) (s + e) = 3 * e / 35 := by
  simp only [HMI.smokeP, HMI.mkSpike, add_sub_cancel_left]
  have h1 : min 1 (e / 14) = e / 14 := min_eq_right (by linarith)
  have h2 : max 0 (e / 14) = e / 14 := max_eq_right (by linarith)
  have h3 : min 1 (e / 14 * (6/5)) = e / 14 * (6/5) := min_eq_right (by linarith)
  rw [if_neg (not_lt.mpr h9), h1, h2, h3]
  ring

/-- Helper: on the decay branch (9 < elapsed <= duration = 14) the smoke
intensity equals `1 - (elapsed - 9) / (5 + 0.01)`, i.e.
`1 - 100 * (elapsed - 9) / 501`. -/
theorem smokeP_fade (r g : String) (s e : ℚ) (h9 : 9 < e)
    (h14 : e ≤ 14 + 1/100) :
    HMI.smokeP (HMI.mkSpike r g s) (s + e) = 1 - 100 * (e - 9) / 501 := by
  simp only [HMI.smokeP, HMI.mkSpike, add_sub_cancel_left]
  rw [if_pos h9]
  have hd : (14 : ℚ) - 9 + 1/100 = 501/100 := by norm_num
  rw [hd]
  have h1 : min 1 ((e - 9) / (501/100)) = (e - 9) / (501/100) :=
    min_eq_right (by rw [div_le_one (by norm_num)]; linarith)
  have h2 : max 0 (1 - (e - 9) / (501/100)) = 1 - (e - 9) / (501/100) :=
    max_eq_right (by rw [sub_nonneg, div_le_one (by norm_num)]; linarith)
  rw [h1, h2]
  ring

/-- Helper: before the start time (elapsed < 0) the smoke intensity is 0. -/
theorem smokeP_neg (r g : String) (s e : ℚ) (h : e < 0) :
    HMI.smokeP (HMI.mkSpike r g s) (s + e) = 0 := by
  simp only [HMI.smokeP, HMI.mkSpike, add_sub_cancel_left]
  rw [if_neg (by linarith)]
  have h1 : min 1 (e / 14) = e / 14 := min_eq_right (by linarith)
  have h2 : max 0 (e / 14) = 0 := max_eq_left (by linarith)
  rw [h1, h2, zero_mul]
  exact min_eq_right (by norm_num)

/-- Helper: from elapsed >= duration + 0.01 on, the smoke intensity is 0
(the fade ratio saturates at 1). -/
theorem smokeP_expired (r g : String) (s e : ℚ) (h : 14 + 1/100 ≤ e) :
    HMI.smokeP (HMI.mkSpike r g s) (s + e) = 0 := by
  simp only [HMI.smokeP, HMI.mkSpike, add_sub_cancel_left]
  rw [if_pos (by linarith)]
  have hd : (14 : ℚ) - 9 + 1/100 = 501/100 := by norm_num
  rw [hd]
  have h1 : min 1 ((e - 9) / (501/100)) = 1 :=
    min_eq_left (by rw [le_div_iff₀ (by norm_num)]; linarith)
  rw [h1]
  norm_num

/-- C2 counterexample: for a spike started at t=100, the intensity at
elapsed == duration (t=114) is 1/501, not exactly 0 — the code divides by
`duration - fade_after + 0.01`, so the decay never reaches 0 within the
event's duration, refuting the claim as stated. -/
theorem c2_intensity_counterexample :
    HMI.smokeP (HMI.mkSpike "Room 3" "O2" 100) 114 = 1/501 ∧
    (1/501 : ℚ) ≠ 0 := by
  constructor
  · simp only [HMI.smokeP, HMI.mkSpike]
    rw [if_pos (by norm_num), min_eq_right (by norm_num),
      max_eq_right (by norm_num)]
    norm_num
  · norm_num

/-- C2 amended: on [0, duration] the intensity is bounded in [0,1] and is 0
at elapsed = 0; it rises as `min(1, 1.2*elapsed/duration)` (= 3e/35, the cap
never binding), strictly increasing up to fade_after = 9; for
9 < elapsed <= 14 it decays linearly as
`1 - (elapsed - 9)/(duration - fade_after + 0.01)`, strictly decreasing; but
the function jumps upward at fade_after (from 27/35 at 9 to 500/501 at 9.01,
so it is not continuous there) and ends at 1/501, not 0, at
elapsed = duration. -/
theorem c2_intensity_amended (r g : String) (s : ℚ) :
    (∀ e, 0 ≤ e → e ≤ 14 →
      0 ≤ HMI.smokeP (HMI.mkSpike r g s) (s + e) ∧
      HMI.smokeP (HMI.mkSpike r g s) (s + e) ≤ 1) ∧
    HMI.smokeP (HMI.mkSpike r g s) (s + 0) = 0 ∧
    (∀ e1 e2, 0 ≤ e1 → e1 < e2 → e2 ≤ 9 →
      HMI.smokeP (HMI.mkSpike r g s) (s + e1) <
        HMI.smokeP (HMI.mkSpike r g s) (s + e2)) ∧
    (∀ e, 0 ≤ e → e ≤ 9 →
      HMI.smokeP (HMI.mkSpike r g s) (s + e) = 3 * e / 35) ∧
    (∀ e, 9 < e → e ≤ 14 →
      HMI.smokeP (HMI.mkSpike r g s) (s + e) = 1 - 100 * (e - 9) / 501) ∧
    (∀ e1 e2, 9 < e1 → e1 < e2 → e2 ≤ 14 →
      HMI.smokeP (HMI.mkSpike r g s) (s + e2) <
        HMI.smokeP (HMI.mkSpike r g s) (s + e1)) ∧
    HMI.smokeP (HMI.mkSpike r g s) (s + 9) = 27/35 ∧
    HMI.smokeP (HMI.mkSpike r g s) (s + 901/100) = 500/501 ∧
    HMI.smokeP (HMI.mkSpike r g s) (s + 14) = 1/501 := by
  refine ⟨?_, ?_, ?_, ?_, ?_, ?_, ?_, ?_, ?_⟩
  · intro e h0 h14
    by_cases he : e ≤ 9
    · rw [smokeP_rise r g s e h0 he]
      constructor <;> linarith
    · push_neg at he
      rw [smokeP_fade r g s e he (by linarith)]
      constructor <;> linarith
  · rw [smokeP_rise r g s 0 (by norm_num) (by norm_num)]
    norm_num
  · intro e1 e2 h0 hlt h9
    rw [smokeP_rise r g s e1 h0 (by linarith),
      smokeP_rise r g s e2 (by linarith) h9]
    linarith
  · exact fun e h0 h9 => smokeP_rise r g s e h0 h9
  · exact fun e h9 h14 => smokeP_fade r g s e h9 (by linarith)
  · intro e1 e2 h9 hlt h14
    rw [smokeP_fade r g s e1 h9 (by linarith),
      smokeP_fade r g s e2 (by linarith) (by linarith)]
    linarith
  · rw [smokeP_rise r g s 9 (by norm_num) (by norm_num)]
    norm_num
  · rw [smokeP_fade r g s (901/100) (by norm_num) (by norm_num)]
    norm_num
  · rw [smokeP_fade r g s 14 (by norm_num) (by norm_num)]
    norm_num

/-- Witness for C2's amended theorem: concrete instances for a Room 3 O2
spike started at t=100 — bounds at elapsed 4, strict rise from 1 to 2,
the decay value at elapsed 10, and strict decay from 10 to 11. -/
theorem c2_intensity_amended_witness :
    (0 ≤ HMI.smokeP (HMI.mkSpike "Room 3" "O2" 100) (100 + 4) ∧
      HMI.smokeP (HMI.mkSpike "Room 3" "O2" 100) (100 + 4) ≤ 1) ∧
    HMI.smokeP (HMI.mkSpike "Room 3" "O2" 100) (100 + 1) <
      HMI.smokeP (HMI.mkSpike "Room 3" "O2" 100) (100 + 2) ∧
    HMI.smokeP (HMI.mkSpike "Room 3" "O2" 100) (100 + 10) =
      1 - 100 * (10 - 9) / 501 ∧
    HMI.smokeP (HMI.mkSpike "Room 3" "O2" 100) (100 + 11) <
      HMI.smokeP (HMI.mkSpike "Room 3" "O2" 100) (100 + 10) :=
  ⟨(c2_intensity_amended "Room 3" "O2" 100).1 4 (by norm_num) (by norm_num),
    (c2_intensity_amended "Room 3" "O2" 100).2.2.1 1 2 (by norm_num)
      (by norm_num) (by norm_num),
    (c2_intensity_amended "Room 3" "O2" 100).2.2.2.2.1 10 (by norm_num)
      (by norm_num),
    (c2_intensity_amended "Room 3" "O2" 100).2.2.2.2.2.1 10 11 (by norm_num)
      (by norm_num) (by norm_num)⟩

/-- C4 counterexample: for a CH4 spike started at t=100 (duration 14), at
t=115 (elapsed 15 > duration) `simulate_live_values` still adds the
positive bump 300/7 to the affected detector's value, and at
elapsed 14.005 (> duration) the intensity is 1/1002, not 0 — the code
never treats an expired spike as inactive nor clears the reference. -/
theorem c4_inactive_counterexample :
    HMI.simValue (some (HMI.mkSpike "Production 1" "CH4" 100))
      "Production 1: CH4" 5 115 = 5 + 300/7 ∧
    (5 + 300/7 : ℚ) ≠ 5 ∧
    HMI.smokeP (HMI.mkSpike "Production 1" "CH4" 100) (100 + 2801/200) =
      1/1002 ∧
    (1/1002 : ℚ) ≠ 0 := by
  refine ⟨?_, by norm_num, ?_, by norm_num⟩
  · simp only [HMI.simValue]
    rw [if_pos (by decide),
      show HMI.gas_from_label "Production 1: CH4" = "CH4" from by decide]
    simp only [HMI.mkSpike, HMI.spikeBump]
    rw [if_pos (by decide), max_eq_right (by norm_num)]
    norm_num
  · rw [smokeP_fade "Production 1" "CH4" 100 (2801/200) (by norm_num)
      (by norm_num)]
    norm_num

/-- C4 amended: for elapsed < 0 the intensity is 0, and from
elapsed >= duration + 0.01 on it is 0 (though it is still positive on
(duration, duration + 0.01), and nothing in the code computes a lifecycle
phase or clears the spike reference); the synthetic bump of
`simulate_live_values` is applied whenever the spike slot is non-empty and
the detector matches — with no expiry check — and for a HIGH_TRIP gas it
stays strictly positive for every elapsed > 0, including past duration. -/
theorem c4_expiry_amended (r g : String) (s : ℚ) :
    (∀ e, e < 0 → HMI.smokeP (HMI.mkSpike r g s) (s + e) = 0) ∧
    (∀ e, 14 + 1/100 ≤ e → HMI.smokeP (HMI.mkSpike r g s) (s + e) = 0) ∧
    (∀ base e, HMI.simValue (some (HMI.mkSpike "Production 1" "CH4" 100))
      "Production 1: CH4" base (100 + e) = base + HMI.spikeBump "CH4" e) ∧
    (∀ e : ℚ, 0 < e → 0 < HMI.spikeBump "CH4" e) := by
  refine ⟨fun e h => smokeP_neg r g s e h,
    fun e h => smokeP_expired r g s e h, ?_, ?_⟩
  · intro base e
    simp only [HMI.simValue]
    rw [if_pos (by decide),
      show HMI.gas_from_label "Production 1: CH4" = "CH4" from by decide]
    simp only [HMI.mkSpike, add_sub_cancel_left]
  · intro e h
    simp only [HMI.spikeBump]
    rw [if_pos (by decide), max_eq_right (by linarith)]
    linarith

/-- Witness for C4's amended theorem: concrete instances for a spike at
t=100 — zero intensity at elapsed -1 and at elapsed 15, the bump equation
at base 5 and elapsed 15, and positivity of the CH4 bump at elapsed 15. -/
theorem c4_expiry_amended_witness :
    HMI.smokeP (HMI.mkSpike "Room 3" "O2" 100) (100 + (-1)) = 0 ∧
    HMI.smokeP (HMI.mkSpike "Room 3" "O2" 100) (100 + 15) = 0 ∧
    HMI.simValue (some (HMI.mkSpike "Production 1" "CH4" 100))
      "Production 1: CH4" 5 (100 + 15) = 5 + HMI.spikeBump "CH4" 15 ∧
    0 < HMI.spikeBump "CH4" 15 :=
  ⟨(c4_expiry_amended "Room 3" "O2" 100).1 (-1) (by norm_num),
    (c4_expiry_amended "Room 3" "O2" 100).2.1 15 (by norm_num),
    (c4_expiry_amended "Room 3" "O2" 100).2.2.1 5 15,
    (c4_expiry_amended "Room 3" "O2" 100).2.2.2 15 (by norm_num)⟩
